import Mathlib

/-!
Verification of the libauth BCH template-compiler operations.

This development shallowly embeds the compiler operations of the repository
(`compiler-bch.ts`, `compiler-operations.ts`, `compiler.ts`) in Lean 4.
Byte arrays (`Uint8Array`) are modelled as `List Nat`, JavaScript objects used
as string-keyed maps are modelled as `String → Option α`, and the capability
back-ends (sha256, secp256k1, HD-key utilities, the script resolver) are
modelled as explicit function parameters, exactly as the source receives them
by dependency injection.  Helpers whose source is outside the repository
snapshot (the `Requires` / `AttemptChain` combinators, the signing-serialization
generator, the format helpers) are modelled from the specification and marked
as such in their doc comments.
-/

namespace LibAuth

/-- Bytes model a JavaScript `Uint8Array`: a list of byte values. -/
abbrev Bytes := List Nat

/-- Result of a compiler operation: success with bytecode, a skip (only from
`canBeSkipped` operations inside a chain), or an error carrying a message and
a recoverability flag (`recoverable: true` in the source objects; absent means
non-recoverable). -/
inductive CompilerOperationResult where
  | success (bytecode : Bytes)
  | skip
  | error (message : String) (recoverable : Bool)
deriving DecidableEq, Repr

/-- Splits a character list at every occurrence of the separator character;
always returns at least one (possibly empty) piece. -/
def splitCharListAux (sep : Char) : List Char → List (List Char)
  | [] => [[]]
  | c :: rest =>
    let r := splitCharListAux sep rest
    if c = sep then [] :: r
    else
      match r with
      | [] => [[c]]
      | x :: xs => (c :: x) :: xs

/-- Model of the JavaScript `String.prototype.split` with a one-character
separator, as used by the source's `identifier.split('.')`: the result always
has at least one element, and empty segments are preserved. -/
def jsSplit (s : String) (sep : Char) : List String :=
  (splitCharListAux sep s.data).map String.mk

/-- Modelled from the spec: the `SigningSerializationFlag` constant `all_outputs`
(`SIGHASH_ALL`); the spec's scenario S3 fixes `ALL|FORK_ID = 0x01|0x40`. -/
def SigningSerializationFlag.all_outputs : Nat := 0x01

/-- Modelled from the spec: the `SigningSerializationFlag` constant `no_outputs`
(`SIGHASH_NONE`). -/
def SigningSerializationFlag.no_outputs : Nat := 0x02

/-- Modelled from the spec: the `SigningSerializationFlag` constant
`corresponding_output` (`SIGHASH_SINGLE`). -/
def SigningSerializationFlag.corresponding_output : Nat := 0x03

/-- Modelled from the spec: the `SigningSerializationFlag` constant `fork_id`;
the spec's scenario S3 fixes `ALL|FORK_ID = 0x41`, so `fork_id = 0x40`. -/
def SigningSerializationFlag.fork_id : Nat := 0x40

/-- Modelled from the spec: the `SigningSerializationFlag` constant
`single_input` (`ANYONE_CAN_PAY`). -/
def SigningSerializationFlag.single_input : Nat := 0x80

/-- Embedding of `getSigningSerializationType` (compiler-bch.ts lines 82 to
127): a switch on the algorithm identifier against the six recognized names,
each optionally prefixed, returning a one-byte `Uint8Array` holding the
bitwise OR of the selected flags, and `undefined` (here `none`) otherwise.
The source's default parameter `prefix = ''` is passed explicitly as `pre`. -/
def getSigningSerializationType (algorithmIdentifier : String) (pre : String) :
    Option Bytes :=
  if algorithmIdentifier = pre ++ "all_outputs" then
    some [SigningSerializationFlag.all_outputs ||| SigningSerializationFlag.fork_id]
  else if algorithmIdentifier = pre ++ "all_outputs_single_input" then
    some [SigningSerializationFlag.all_outputs |||
      SigningSerializationFlag.single_input ||| SigningSerializationFlag.fork_id]
  else if algorithmIdentifier = pre ++ "corresponding_output" then
    some [SigningSerializationFlag.corresponding_output |||
      SigningSerializationFlag.fork_id]
  else if algorithmIdentifier = pre ++ "corresponding_output_single_input" then
    some [SigningSerializationFlag.corresponding_output |||
      SigningSerializationFlag.single_input ||| SigningSerializationFlag.fork_id]
  else if algorithmIdentifier = pre ++ "no_outputs" then
    some [SigningSerializationFlag.no_outputs ||| SigningSerializationFlag.fork_id]
  else if algorithmIdentifier = pre ++ "no_outputs_single_input" then
    some [SigningSerializationFlag.no_outputs |||
      SigningSerializationFlag.single_input ||| SigningSerializationFlag.fork_id]
  else none

/-- The six recognized signing-serialization algorithm identifiers. -/
def signingSerializationAlgorithmIdentifiers : List String :=
  ["all_outputs", "all_outputs_single_input", "corresponding_output",
   "corresponding_output_single_input", "no_outputs", "no_outputs_single_input"]

/-- The transaction context required for signing (`CompilerOperationDataCommon`
in compiler-types.ts, described in the spec's data model): all numeric fields
are unsigned with fixed widths, byte fields are raw byte sequences, and
`correspondingOutput` is optional. -/
structure OperationData where
  correspondingOutput : Option Bytes
  coveredBytecode : Bytes
  locktime : Nat
  outpointIndex : Nat
  outpointTransactionHash : Bytes
  outputValue : Nat
  sequenceNumber : Nat
  transactionOutpoints : Bytes
  transactionOutputs : Bytes
  transactionSequenceNumbers : Bytes
  version : Nat

/-- A small concrete transaction context used to witness claims about the
ECDSA/Schnorr signature path. -/
def odExampleC1 : OperationData where
  correspondingOutput := none
  coveredBytecode := [0x51]
  locktime := 0
  outpointIndex := 0
  outpointTransactionHash := List.replicate 32 1
  outputValue := 10000
  sequenceNumber := 0
  transactionOutpoints := [2]
  transactionOutputs := [3]
  transactionSequenceNumbers := [4]
  version := 2

/-- A small concrete transaction context used to witness claims about
malformed signature identifiers. -/
def odExampleC3 : OperationData := odExampleC1

/-- Modelled from the spec: `numberToBinUint32LE` (format/numbers, absent from
the snapshot) renders a number as four little-endian bytes. -/
def numberToBinUint32LE (n : Nat) : Bytes :=
  [n % 256, n / 256 % 256, n / 256 ^ 2 % 256, n / 256 ^ 3 % 256]

/-- Modelled from the spec: `bigIntToBinUint64LE` (format/numbers, absent from
the snapshot) renders a number as eight little-endian bytes. -/
def bigIntToBinUint64LE (n : Nat) : Bytes :=
  (List.range 8).map fun i => n / 256 ^ i % 256

/-- Modelled from the spec: `bigIntToBitcoinVarInt` (format/numbers, absent
from the snapshot) renders a length in the Bitcoin variable-integer format;
the spec's scenario S4 fixes 260 ↦ `0xfd 0x04 0x01`. -/
def bigIntToBitcoinVarInt (n : Nat) : Bytes :=
  if n < 0xfd then [n]
  else if n ≤ 0xffff then 0xfd :: [n % 256, n / 256 % 256]
  else if n ≤ 0xffffffff then 0xfe :: numberToBinUint32LE n
  else 0xff :: bigIntToBinUint64LE n

/-- Modelled from the spec: `generateSigningSerializationBCH`
(vm/instruction-sets/common/signing-serialization.ts, absent from the
snapshot).  Concatenates, in the fixed order of spec section 4.4: version
(u32 LE); double-SHA-256 of `transactionOutpoints` (or 32 zero bytes when
`SINGLE_INPUT` is set); double-SHA-256 of `transactionSequenceNumbers` (or
zeros when `SINGLE_INPUT`, `SINGLE`, or `NONE` applies); the outpoint
transaction hash; outpoint index (u32 LE); varint length of
`coveredBytecode`; `coveredBytecode`; output value (u64 LE); sequence number
(u32 LE); double-SHA-256 of `transactionOutputs` or of `correspondingOutput`
or zeros per the SIGHASH rules; locktime (u32 LE); and the SIGHASH byte.
The sha256 capability is received as the hash function `h`. -/
def generateSigningSerializationBCH (h : Bytes → Bytes)
    (signingSerializationType : Bytes) (od : OperationData) : Bytes :=
  let sighash := signingSerializationType.headD 0
  let zero32 : Bytes := List.replicate 32 0
  let base := sighash &&& 0x1f
  let anyoneCanPay := sighash &&& SigningSerializationFlag.single_input ≠ 0
  let hashPrevouts :=
    if anyoneCanPay then zero32 else h (h od.transactionOutpoints)
  let hashSequence :=
    if anyoneCanPay ∨ base = SigningSerializationFlag.corresponding_output ∨
        base = SigningSerializationFlag.no_outputs then zero32
    else h (h od.transactionSequenceNumbers)
  let hashOutputs :=
    if base = SigningSerializationFlag.all_outputs then
      h (h od.transactionOutputs)
    else if base = SigningSerializationFlag.corresponding_output then
      match od.correspondingOutput with
      | some co => h (h co)
      | none => zero32
    else zero32
  numberToBinUint32LE od.version ++ hashPrevouts ++ hashSequence ++
    od.outpointTransactionHash ++ numberToBinUint32LE od.outpointIndex ++
    bigIntToBitcoinVarInt od.coveredBytecode.length ++ od.coveredBytecode ++
    bigIntToBinUint64LE od.outputValue ++
    numberToBinUint32LE od.sequenceNumber ++ hashOutputs ++
    numberToBinUint32LE od.locktime ++ signingSerializationType

/-- Embedding of `compilerOperationHelperComputeSignatureBCH`
(compiler-bch.ts lines 129 to 188).  The identifier is split on `.`; a present
fourth segment or a missing third segment yields a non-recoverable error; an
unrecognized algorithm yields a non-recoverable error; otherwise the signing
serialization is generated with the selected SIGHASH byte, double-SHA-256
hashed, signed, and the SIGHASH byte is appended to the signature.  The
`sign` and `sha256` capabilities are received as function parameters, as in
the source. -/
def compilerOperationHelperComputeSignatureBCH (identifier : String)
    (privateKey : Bytes) (operationData : OperationData)
    (operationName : String) (sign : Bytes → Bytes → Bytes)
    (sha256hash : Bytes → Bytes) : CompilerOperationResult :=
  let parts := jsSplit identifier '.'
  match parts.get? 3 with
  | some unknown =>
    .error (s!"Unknown component in \"{identifier}\" – the fragment \"{unknown}\" is not recognized.") false
  | none =>
    match parts.get? 2 with
    | none =>
      .error (s!"Invalid signature identifier. Signatures must be of the form: \"[variable_id].{operationName}.[signing_serialization_type]\".") false
    | some algorithm =>
      match getSigningSerializationType algorithm "" with
      | none =>
        .error (s!"Unknown signing serialization algorithm, \"{algorithm}\".") false
      | some signingSerializationType =>
        let serialization :=
          generateSigningSerializationBCH sha256hash signingSerializationType
            operationData
        let digest := sha256hash (sha256hash serialization)
        .success (sign privateKey digest ++ signingSerializationType)

/-- An `HdKey` template variable (template-types.ts, absent from the snapshot;
fields per the spec): a BIP32-style hierarchical key with optional private and
public derivation paths and an optional address offset. -/
structure HdKey where
  addressOffset : Option Int
  privateDerivationPath : Option String
  publicDerivationPath : Option String
deriving DecidableEq, Repr

/-- A template variable, tagged by category (spec data model); only the
`HdKey` payload is needed by the embedded operations. -/
inductive TemplateVariable where
  | key
  | hdKey (k : HdKey)
  | addressData
  | walletData
deriving DecidableEq, Repr

/-- The `keys` portion of the compilation data: optional maps from variable id
to private and public key bytes. -/
structure Keys where
  privateKeys : Option (String → Option Bytes)
  publicKeys : Option (String → Option Bytes)

/-- The `hdKeys` portion of the compilation data: the address index and
optional maps from entity id to encoded HD keys, and from variable id to
already-derived public keys. -/
structure HdKeys where
  addressIndex : Option Nat
  hdPrivateKeys : Option (String → Option String)
  hdPublicKeys : Option (String → Option String)
  derivedPublicKeys : Option (String → Option Bytes)

/-- The per-invocation `CompilationData` (compiler-types.ts, described in the
spec's data model); every field is optional and presence is checked by the
`Requires` combinator. -/
structure CompilationData where
  addressData : Option (String → Option Bytes)
  walletData : Option (String → Option Bytes)
  currentBlockHeight : Option Nat
  currentBlockTime : Option Nat
  keys : Option Keys
  hdKeys : Option HdKeys
  operationData : Option OperationData

/-- The sha256 capability: the `hash` method used by the operations. -/
structure Sha256Cap where
  hash : Bytes → Bytes

/-- The secp256k1 capability: compressed public-key derivation and the two
signing methods. -/
structure Secp256k1Cap where
  derivePublicKeyCompressed : Bytes → Bytes
  signMessageHashDER : Bytes → Bytes → Bytes
  signMessageHashSchnorr : Bytes → Bytes → Bytes

/-- An HD node as produced by the HD-key utilities; the operations only read
its `publicKey`. -/
structure HdNode where
  publicKey : Bytes
deriving DecidableEq, Repr

/-- Result of `resolveScriptIdentifier` (language/resolve.ts, absent from the
snapshot): `false` when the identifier cannot be resolved, a string carrying a
nested compile-error message, or the compiled bytecode. -/
inductive ResolvedScript where
  | failed
  | errorMessage (message : String)
  | resolved (bytecode : Bytes)
deriving DecidableEq, Repr

/-- The `CompilationEnvironment` (compiler-types.ts, described in the spec's
data model).  Capability handles are optional; the HD-key utilities
(`decodeHdPublicKey`, `deriveHdPath`), the private-node derivation helper
(`compilerOperationHelperDeriveHdPrivateNode`), and the script resolver
(`resolveScriptIdentifier`) are absent from the snapshot and are modelled from
the spec as opaque total functions carried by the environment, exactly as the
source passes the environment into them. -/
structure CompilationEnvironment where
  scripts : String → Option String
  «variables» : Option (String → Option TemplateVariable)
  entityOwnership : Option (String → Option String)
  secp256k1 : Option Secp256k1Cap
  sha256 : Option Sha256Cap
  sha512 : Option Unit
  ripemd160 : Option Unit
  resolveScriptId : CompilationData → String → ResolvedScript
  decodeHdPublicKey : String → Except String HdNode
  deriveHdPath : HdNode → String → Except String HdNode
  deriveHdPrivateNode : Nat → String → String → HdKey → String →
    Except (String × Bool) Bytes

/-- A compiler operation: a function from identifier, data, and environment to
a result. -/
abbrev CompilerOperation :=
  String → CompilationData → CompilationEnvironment → CompilerOperationResult

/-- Model of the JavaScript read `o === undefined ? undefined : o[k]` on an
optional string-keyed object. -/
def jsGet (o : Option (String → Option α)) (k : String) : Option α :=
  match o with
  | none => none
  | some f => f k

/-- Whether the named property is present on the compilation data (used by the
`Requires` combinator's prerequisite check). -/
def CompilationData.hasProperty (data : CompilationData) (p : String) : Bool :=
  if p = "addressData" then data.addressData.isSome
  else if p = "walletData" then data.walletData.isSome
  else if p = "currentBlockHeight" then data.currentBlockHeight.isSome
  else if p = "currentBlockTime" then data.currentBlockTime.isSome
  else if p = "keys" then data.keys.isSome
  else if p = "hdKeys" then data.hdKeys.isSome
  else if p = "operationData" then data.operationData.isSome
  else false

/-- Whether the named property is present on the environment; the base
properties (`scripts`, `opcodes`, `operations`, …) are always present. -/
def CompilationEnvironment.hasProperty (environment : CompilationEnvironment)
    (p : String) : Bool :=
  if p = "variables" then environment.variables.isSome
  else if p = "entityOwnership" then environment.entityOwnership.isSome
  else if p = "secp256k1" then environment.secp256k1.isSome
  else if p = "sha256" then environment.sha256.isSome
  else if p = "sha512" then environment.sha512.isSome
  else if p = "ripemd160" then environment.ripemd160.isSome
  else true

/-- Modelled from the spec: the `Requires` combinator
(`compilerOperationRequires`, compiler-operation-helpers.ts, absent from the
snapshot).  Before calling the wrapped operation it verifies that every listed
property is present on the data and the environment; a missing property yields
`Skip` when `canBeSkipped`, and otherwise a non-recoverable error naming the
missing property (scenario S2 fixes the message form). -/
def compilerOperationRequires (canBeSkipped : Bool)
    (dataProperties environmentProperties : List String)
    (operation : CompilerOperation) : CompilerOperation :=
  fun identifier data environment =>
    match dataProperties.find? (fun p => !(data.hasProperty p)) with
    | some missing =>
      if canBeSkipped then .skip else .error (s!"missing property: {missing}") false
    | none =>
      match environmentProperties.find?
          (fun p => !(environment.hasProperty p)) with
      | some missing =>
        if canBeSkipped then .skip else .error (s!"missing property: {missing}") false
      | none => operation identifier data environment

/-- Recursion of the `AttemptChain` combinator over the alternative
operations: `Skip` and recoverable errors advance, any other result is
decisive; when the alternatives are exhausted the final operation runs. -/
def attemptChainGo (identifier : String) (data : CompilationData)
    (environment : CompilationEnvironment) (finalOperation : CompilerOperation) :
    List CompilerOperation → CompilerOperationResult
  | [] => finalOperation identifier data environment
  | op :: rest =>
    match op identifier data environment with
    | .skip => attemptChainGo identifier data environment finalOperation rest
    | .error _ true => attemptChainGo identifier data environment finalOperation rest
    | r => r

/-- Modelled from the spec: the `AttemptChain` combinator
(`attemptCompilerOperations`, compiler-operation-helpers.ts, absent from the
snapshot): invokes the alternatives in order — a skip or recoverable error
advances, a success or non-recoverable error is returned immediately — and
falls back to the final (authoritative) operation. -/
def attemptCompilerOperations (alternatives : List CompilerOperation)
    (finalOperation : CompilerOperation) : CompilerOperation :=
  fun identifier data environment =>
    attemptChainGo identifier data environment finalOperation alternatives

/-- Embedding of `compilerOperationKeyPublicKeyCommon` (compiler-operations.ts
lines 288 to 336): an attempt chain whose skippable first operation returns a
precomputed `keys.publicKeys[variableId]` when present, and whose
authoritative second operation (requiring `keys` and `secp256k1`) derives the
compressed public key from `keys.privateKeys[variableId]`, or reports a
recoverable error when neither key is provided. -/
def compilerOperationKeyPublicKeyCommon : CompilerOperation :=
  attemptCompilerOperations
    [compilerOperationRequires true ["keys"] []
      (fun identifier data _ =>
        match data.keys with
        | none => .error "internal" false
        | some keys =>
          let variableId := (jsSplit identifier '.').headD ""
          match jsGet keys.publicKeys variableId with
          | some pk => .success pk
          | none => .skip)]
    (compilerOperationRequires false ["keys"] ["secp256k1"]
      (fun identifier data environment =>
        match data.keys, environment.secp256k1 with
        | some keys, some secp256k1 =>
          let variableId := (jsSplit identifier '.').headD ""
          match jsGet keys.privateKeys variableId with
          | some privateKey =>
            .success (secp256k1.derivePublicKeyCompressed privateKey)
          | none =>
            .error (s!"Identifier \"{identifier}\" refers to a public key, but no public or private keys for \"{variableId}\" were provided in the compilation data.") true
        | _, _ => .error "internal" false))

/-- Embedding of `compilerOperationSigningSerializationCorrespondingOutput`
(compiler-operations.ts lines 80 to 93): returns the corresponding output
bytes, or an empty byte sequence when the field is undefined. -/
def compilerOperationSigningSerializationCorrespondingOutput :
    CompilerOperation :=
  compilerOperationRequires false ["operationData"] []
    (fun _ data _ =>
      match data.operationData with
      | none => .error "internal" false
      | some od =>
        match od.correspondingOutput with
        | none => .success []
        | some co => .success co)

/-- Embedding of
`compilerOperationSigningSerializationCorrespondingOutputHash`
(compiler-operations.ts lines 95 to 110): returns the double-SHA-256 of the
corresponding output, or an empty byte sequence when the field is
undefined. -/
def compilerOperationSigningSerializationCorrespondingOutputHash :
    CompilerOperation :=
  compilerOperationRequires false ["operationData"] ["sha256"]
    (fun _ data environment =>
      match data.operationData, environment.sha256 with
      | some od, some sh =>
        match od.correspondingOutput with
        | none => .success []
        | some co => .success (sh.hash (sh.hash co))
      | _, _ => .error "internal" false)

/-- Embedding of `compilerOperationSigningSerializationFullBCH`
(compiler-bch.ts lines 489 to 544): requires `operationData` and `sha256`;
the identifier's second segment must be present, a third segment is an
unknown component, and the second segment must name a `full_`-prefixed
algorithm; on success the raw signing serialization generated with the
selected SIGHASH byte is returned with no hashing and no signing. -/
def compilerOperationSigningSerializationFullBCH : CompilerOperation :=
  compilerOperationRequires false ["operationData"] ["sha256"]
    (fun identifier data environment =>
      let parts := jsSplit identifier '.'
      match parts.get? 1 with
      | none =>
        .error "Invalid signing serialization operation. Include the desired component or algorithm, e.g. \"signing_serialization.version\"." false
      | some algorithmOrComponent =>
        match parts.get? 2 with
        | some unknownPart =>
          .error (s!"Unknown component in \"{identifier}\" – the fragment \"{unknownPart}\" is not recognized.") false
        | none =>
          match getSigningSerializationType algorithmOrComponent "full_" with
          | none =>
            .error (s!"Unknown signing serialization algorithm, \"{algorithmOrComponent}\".") false
          | some signingSerializationType =>
            match data.operationData, environment.sha256 with
            | some od, some sh =>
              .success (generateSigningSerializationBCH sh.hash
                signingSerializationType od)
            | _, _ => .error "internal" false)

/-- Embedding of `compilerOperationHelperComputeDataSignatureBCH`
(compiler-bch.ts lines 302 to 366).  The identifier is split on `.`; a present
fourth segment or a missing third segment yields a non-recoverable error;
otherwise the target script is looked up in `environment.scripts` and resolved
through `resolveScriptIdentifier` — a missing script or failed resolution
yields the unknown-target error, a nested compile error is surfaced as its
string message, and on success the compiled bytecode is hashed once with
SHA-256 and signed, with no SIGHASH suffix. -/
def compilerOperationHelperComputeDataSignatureBCH (data : CompilationData)
    (environment : CompilationEnvironment) (identifier : String)
    (privateKey : Bytes) (operationName : String)
    (sign : Bytes → Bytes → Bytes) (sha256hash : Bytes → Bytes) :
    CompilerOperationResult :=
  let parts := jsSplit identifier '.'
  match parts.get? 3 with
  | some unknown =>
    .error (s!"Unknown component in \"{identifier}\" – the fragment \"{unknown}\" is not recognized.") false
  | none =>
    match parts.get? 2 with
    | none =>
      .error (s!"Invalid data signature identifier. Data signatures must be of the form: \"[variable_id].{operationName}.[target_script_id]\".") false
    | some scriptId =>
      let signingTarget := environment.scripts scriptId
      let compiledTarget := environment.resolveScriptId data scriptId
      match compiledTarget, signingTarget with
      | .failed, _ =>
        .error (s!"Data signature tried to sign an unknown target script, \"{scriptId}\".") false
      | _, none =>
        .error (s!"Data signature tried to sign an unknown target script, \"{scriptId}\".") false
      | .errorMessage message, some _ => .error message false
      | .resolved bytecode, some _ =>
        .success (sign privateKey (sha256hash bytecode))

/-- Modelled from the spec: the `CompilerDefaults` constant
`hdKeyAddressOffset` (compiler-defaults.ts, absent from the snapshot) — the
address offset used when an `HdKey` variable does not specify one. -/
def CompilerDefaults.hdKeyAddressOffset : Int := 0

/-- Modelled from the spec: the `CompilerDefaults` constant
`hdKeyPrivateDerivationPath` (compiler-defaults.ts, absent from the snapshot)
— the private derivation path used when an `HdKey` variable does not specify
one; paths use `m/...` with `i` substitutable by the address index. -/
def CompilerDefaults.hdKeyPrivateDerivationPath : String := "m/i"

/-- Replaces the first occurrence of `pat` in a character list with `rep`;
the list is returned unchanged when `pat` does not occur. -/
def replaceFirstAux (pat rep : List Char) : List Char → List Char
  | [] => []
  | c :: rest =>
    if pat.isPrefixOf (c :: rest) then rep ++ (c :: rest).drop pat.length
    else c :: replaceFirstAux pat rep rest

/-- Model of the JavaScript `String.prototype.replace` with a string search
pattern: replaces only the first occurrence of `pat` in `s` (and returns `s`
unchanged when `pat` does not occur). -/
def jsReplaceFirst (s pat rep : String) : String :=
  String.mk (replaceFirstAux pat.data rep.data s.data)

/-- Modelled from the spec: `compilerOperationHelperUnknownEntity`
(compiler-operation-helpers.ts, absent from the snapshot): a non-recoverable
error for a variable with no owning entity. -/
def compilerOperationHelperUnknownEntity (identifier variableId : String) :
    CompilerOperationResult :=
  .error (s!"Identifier \"{identifier}\" refers to a variable, but no owning entity for \"{variableId}\" is listed in the active environment.") false

/-- Modelled from the spec: `compilerOperationHelperAddressIndex`
(compiler-operation-helpers.ts, absent from the snapshot): a recoverable
error for a missing `hdKeys.addressIndex`. -/
def compilerOperationHelperAddressIndex (identifier : String) :
    CompilerOperationResult :=
  .error (s!"Identifier \"{identifier}\" refers to an HdKey, but the compilation data does not include an \"hdKeys.addressIndex\".") true

/-- Embedding of `compilerOperationHdKeyPublicKeyCommon`
(compiler-operations.ts lines 338 to 465): an attempt chain whose skippable
first operation returns a precomputed `hdKeys.derivedPublicKeys[variableId]`
when present; the authoritative second operation requires `hdKeys` plus the
six environment properties, resolves the owning entity and the address index,
prefers the entity's HD private key (deriving the private node and then its
compressed public key), and otherwise derives along the public path: the
public derivation path (defaulting from the private derivation path with the
first `m` replaced by `M`) has its first `i` replaced by the decimal rendering
of `addressIndex + addressOffset`, the entity's HD public key is decoded, and
the instance node is derived along that path. -/
def compilerOperationHdKeyPublicKeyCommon : CompilerOperation :=
  attemptCompilerOperations
    [compilerOperationRequires true ["hdKeys"] []
      (fun identifier data _ =>
        match data.hdKeys with
        | none => .error "internal" false
        | some hdKeys =>
          let variableId := (jsSplit identifier '.').headD ""
          match jsGet hdKeys.derivedPublicKeys variableId with
          | some pk => .success pk
          | none => .skip)]
    (compilerOperationRequires false ["hdKeys"]
      ["entityOwnership", "ripemd160", "secp256k1", "sha256", "sha512",
       "variables"]
      (fun identifier data environment =>
        match data.hdKeys with
        | none => .error "internal" false
        | some hdKeys =>
          let variableId := (jsSplit identifier '.').headD ""
          match jsGet environment.entityOwnership variableId with
          | none => compilerOperationHelperUnknownEntity identifier variableId
          | some entityId =>
            match hdKeys.addressIndex with
            | none => compilerOperationHelperAddressIndex identifier
            | some addressIndex =>
              let entityHdPrivateKey := jsGet hdKeys.hdPrivateKeys entityId
              match jsGet environment.«variables» variableId with
              | some (.hdKey hdKey) =>
                match entityHdPrivateKey with
                | some privKey =>
                  match environment.deriveHdPrivateNode addressIndex privKey
                      entityId hdKey identifier with
                  | .error (message, recoverable) => .error message recoverable
                  | .ok bytes =>
                    match environment.secp256k1 with
                    | some secp256k1 =>
                      .success (secp256k1.derivePublicKeyCompressed bytes)
                    | none => .error "internal" false
                | none =>
                  match jsGet hdKeys.hdPublicKeys entityId with
                  | none =>
                    .error (s!"Identifier \"{identifier}\" refers to an HdKey owned by \"{entityId}\", but an HD private key or HD public key for this entity was not provided in the compilation data.") true
                  | some entityHdPublicKey =>
                    let addressOffset :=
                      hdKey.addressOffset.getD CompilerDefaults.hdKeyAddressOffset
                    let privateDerivationPath :=
                      hdKey.privateDerivationPath.getD
                        CompilerDefaults.hdKeyPrivateDerivationPath
                    let publicDerivationPath :=
                      hdKey.publicDerivationPath.getD
                        (jsReplaceFirst privateDerivationPath "m" "M")
                    let i : Int := (addressIndex : Int) + addressOffset
                    let instancePath :=
                      jsReplaceFirst publicDerivationPath "i" (toString i)
                    match environment.decodeHdPublicKey entityHdPublicKey with
                    | .error message =>
                      .error (s!"Could not generate \"{identifier}\" – the HD public key provided for \"{entityId}\" could not be decoded: {message}") false
                    | .ok node =>
                      match environment.deriveHdPath node instancePath with
                      | .error message =>
                        .error (s!"Could not generate \"{identifier}\" – the path \"{instancePath}\" could not be derived for entity \"{entityId}\": {message}") false
                      | .ok instanceNode => .success instanceNode.publicKey
              | _ => .error "internal" false))

/-- An entity of an `AuthenticationTemplate` (template-types.ts, described in
the spec's data model): its (optional) variable map, modelled as an
association list in JavaScript object-enumeration order. -/
structure AuthenticationTemplateEntity (V : Type) where
  «variables» : Option (List (String × V))

/-- A script definition of an `AuthenticationTemplate`: its source string. -/
structure AuthenticationTemplateScript where
  script : String

/-- An `AuthenticationTemplate` restricted to the parts read by the adapter:
entities and scripts, each as an association list in object-enumeration
order; the variable payload type is a parameter. -/
structure AuthenticationTemplate (V : Type) where
  entities : List (String × AuthenticationTemplateEntity V)
  scripts : List (String × AuthenticationTemplateScript)

/-- The always-empty JavaScript object `{}` as a lookup function. -/
def emptyObj : String → Option α := fun _ => none

/-- Model of the JavaScript object spread `{...a, ...b}` on string-keyed
objects represented as lookup functions: keys of `b` win. -/
def objectSpread (a b : String → Option α) : String → Option α :=
  fun k => (b k).orElse fun _ => a k

/-- Lookup in a JavaScript object represented as an association list in
insertion order: the last binding of a key wins, as in object literals. -/
def jsObjLookup : List (String × α) → String → Option α
  | [], _ => none
  | q :: rest, k =>
    match jsObjLookup rest k with
    | some v => some v
    | none => if q.1 = k then some q.2 else none

/-- The part of a `CompilationEnvironment` produced by the template adapter:
`entityOwnership`, `scripts`, and `variables` as lookup functions. -/
structure TemplateEnvironmentPart (V : Type) where
  entityOwnership : String → Option String
  scripts : String → Option String
  «variables» : String → Option V

/-- Embedding of `authenticationTemplateToCompilationEnvironment`
(compiler.ts lines 121 to 149): `scripts` is the fold of singleton spreads
over the template's script entries; `variables` is the fold of spreads of
each entity's variable object over the entities; `entityOwnership` is the
fold, over the entities, of spreads of the object mapping each key of
`entity.variables ?? {}` to the entity id.  Later spreads overwrite earlier
ones, making the enumeration's last write win. -/
def authenticationTemplateToCompilationEnvironment
    (t : AuthenticationTemplate V) : TemplateEnvironmentPart V :=
  let scripts := t.scripts.foldl
    (fun all p =>
      objectSpread all fun k => if p.1 = k then some p.2.script else none)
    emptyObj
  let vars := t.entities.foldl
    (fun all p => objectSpread all (jsObjLookup (p.2.«variables».getD [])))
    emptyObj
  let entityOwnership := t.entities.foldl
    (fun all p =>
      objectSpread all
        ((p.2.«variables».getD []).foldl
          (fun entityVariables q =>
            objectSpread entityVariables fun k =>
              if q.1 = k then some p.1 else none)
          emptyObj))
    emptyObj
  { entityOwnership := entityOwnership, scripts := scripts,
    «variables» := vars }

/-- Specification-side characterization for the adapter: the last entity in
enumeration order whose variable set declares the given id ("the
last-enumerated entity wins"). -/
def lastDeclaringEntity :
    List (String × AuthenticationTemplateEntity V) → String →
    Option (String × AuthenticationTemplateEntity V)
  | [], _ => none
  | p :: rest, k =>
    match lastDeclaringEntity rest k with
    | some q => some q
    | none =>
      if (jsObjLookup (p.2.«variables».getD []) k).isSome then some p
      else none

/-- Keys for the C4 witness: only a precomputed public key for `alice`. -/
def keysExampleC4 : Keys where
  privateKeys := none
  publicKeys := some fun k => if k = "alice" then some [2, 170] else none


/-- Compilation data for the C4 witness. -/
def dataExampleC4 : CompilationData where
  addressData := none
  walletData := none
  currentBlockHeight := none
  currentBlockTime := none
  keys := some keysExampleC4
  hdKeys := none
  operationData := none


/-- An environment with no capabilities at all, as in the spec's scenario S1. -/
def envExampleC4 : CompilationEnvironment where
  scripts := fun _ => none
  «variables» := none
  entityOwnership := none
  secp256k1 := none
  sha256 := none
  sha512 := none
  ripemd160 := none
  resolveScriptId := fun _ _ => .failed
  decodeHdPublicKey := fun _ => .error "undecodable"
  deriveHdPath := fun _ _ => .error "underivable"
  deriveHdPrivateNode := fun _ _ _ _ _ => .error ("underivable", false)


/-- An environment for the C5 witness: one script `target` resolving to the
single byte `0x51`. -/
def envExampleC5 : CompilationEnvironment :=
  { envExampleC4 with
    scripts := fun k => if k = "target" then some "OP_1" else none
    resolveScriptId := fun _ k =>
      if k = "target" then .resolved [81] else .failed }


/-- Compilation data for the C5 witness (unused by the helper itself). -/
def dataExampleC5 : CompilationData := dataExampleC4


/-- Compilation data for the C7 and C9 witnesses: only operation data. -/
def dataExampleC7 : CompilationData :=
  { dataExampleC4 with keys := none, operationData := some odExampleC1 }


/-- An environment providing a toy sha256 capability for the C7 and C9
witnesses. -/
def envExampleC7 : CompilationEnvironment :=
  { envExampleC4 with sha256 := some ⟨fun b => 7 :: b⟩ }


/-- Compilation data for the C8 witness: address index 3 and an HD public key
for the owning entity, with no HD private keys and no precomputed derived
public keys. -/
def dataExampleC8 : CompilationData :=
  { dataExampleC4 with
    keys := none
    hdKeys := some
      { addressIndex := some 3
        hdPrivateKeys := none
        hdPublicKeys := some fun k => if k = "owner" then some "xpub-owner" else none
        derivedPublicKeys := none } }


/-- Environment for the C8 witness: the variable `mykey` is an `HdKey` with
private derivation path `m/0/i` and address offset 2, owned by `owner`; the
HD-key utilities decode any key and derive only the path `M/0/5`, so a
success observes exactly which instance path was passed to `deriveHdPath`. -/
def envExampleC8 : CompilationEnvironment where
  scripts := fun _ => none
  «variables» := some fun k =>
    if k = "mykey" then
      some (.hdKey { addressOffset := some 2
                     privateDerivationPath := some "m/0/i"
                     publicDerivationPath := none })
    else none
  entityOwnership := some fun k => if k = "mykey" then some "owner" else none
  secp256k1 := some ⟨fun b => b, fun _ _ => [], fun _ _ => []⟩
  sha256 := some ⟨fun b => b⟩
  sha512 := some ()
  ripemd160 := some ()
  resolveScriptId := fun _ _ => .failed
  decodeHdPublicKey := fun _ => .ok ⟨[3, 3]⟩
  deriveHdPath := fun _ p => if p = "M/0/5" then .ok ⟨[5, 5]⟩ else .error "wrong path"
  deriveHdPrivateNode := fun _ _ _ _ _ => .error ("unused", false)


end LibAuth

namespace LibAuth

/-- C2: for each of the six algorithm identifiers, `getSigningSerializationType`
(with the default empty prefix) returns the single-byte bitwise OR of exactly
the flags listed in the spec's table, and returns `undefined` for every other
string. -/
theorem c2_getSigningSerializationType_table :
    getSigningSerializationType "all_outputs" "" =
      some [SigningSerializationFlag.all_outputs ||| SigningSerializationFlag.fork_id] ∧
    getSigningSerializationType "all_outputs_single_input" "" =
      some [SigningSerializationFlag.all_outputs |||
        SigningSerializationFlag.single_input ||| SigningSerializationFlag.fork_id] ∧
    getSigningSerializationType "corresponding_output" "" =
      some [SigningSerializationFlag.corresponding_output |||
        SigningSerializationFlag.fork_id] ∧
    getSigningSerializationType "corresponding_output_single_input" "" =
      some [SigningSerializationFlag.corresponding_output |||
        SigningSerializationFlag.single_input ||| SigningSerializationFlag.fork_id] ∧
    getSigningSerializationType "no_outputs" "" =
      some [SigningSerializationFlag.no_outputs ||| SigningSerializationFlag.fork_id] ∧
    getSigningSerializationType "no_outputs_single_input" "" =
      some [SigningSerializationFlag.no_outputs |||
        SigningSerializationFlag.single_input ||| SigningSerializationFlag.fork_id] ∧
    ∀ s : String, s ∉ signingSerializationAlgorithmIdentifiers →
      getSigningSerializationType s "" = none := by
  refine ⟨by decide, by decide, by decide, by decide, by decide, by decide, ?_⟩
  intro s hs
  simp only [signingSerializationAlgorithmIdentifiers, List.mem_cons,
    List.not_mem_nil, or_false, not_or] at hs
  obtain ⟨h1, h2, h3, h4, h5, h6⟩ := hs
  unfold getSigningSerializationType
  rw [if_neg (by simpa using h1), if_neg (by simpa using h2),
    if_neg (by simpa using h3), if_neg (by simpa using h4),
    if_neg (by simpa using h5), if_neg (by simpa using h6)]

/-- Witness for C2: the quantified clause evaluated at the concrete
unrecognized string `"bogus"`. -/
theorem c2_getSigningSerializationType_table_witness :
    getSigningSerializationType "bogus" "" = none :=
  c2_getSigningSerializationType_table.2.2.2.2.2.2 "bogus" (by decide)

/-- C1: for every identifier of the form `variableId.operationName.algorithm`
(third dot-separated segment present and recognized, fourth absent), and for
every private key, operation data, sign function, and sha256 capability,
`compilerOperationHelperComputeSignatureBCH` returns a success whose bytecode
is `sign(privateKey, sha256(sha256(serialization)))` followed by exactly the
one-byte SIGHASH value selected by the algorithm, where the serialization is
the signing serialization generated from the operation data with that SIGHASH
byte; in particular the final byte of the signature equals the selected
SIGHASH byte. -/
theorem c1_computeSignatureBCH_success (identifier : String)
    (privateKey : Bytes) (od : OperationData) (operationName : String)
    (sign : Bytes → Bytes → Bytes) (h : Bytes → Bytes) (alg : String) (b : Nat)
    (hP : (jsSplit identifier '.').get? 3 = none)
    (hA : (jsSplit identifier '.').get? 2 = some alg)
    (hT : getSigningSerializationType alg "" = some [b]) :
    compilerOperationHelperComputeSignatureBCH identifier privateKey od
        operationName sign h =
      .success (sign privateKey
        (h (h (generateSigningSerializationBCH h [b] od))) ++ [b]) ∧
    (sign privateKey
        (h (h (generateSigningSerializationBCH h [b] od))) ++ [b]).getLast? =
      some b := by
  constructor
  · simp only [compilerOperationHelperComputeSignatureBCH, hP, hA, hT]
  · simp

/-- Witness for C1: the concrete identifier `"alice.signature.all_outputs"`
with toy sign and hash functions produces the signature bytes followed by the
SIGHASH byte `0x41`, which is also its final byte. -/
theorem c1_computeSignatureBCH_success_witness :
    compilerOperationHelperComputeSignatureBCH "alice.signature.all_outputs"
        [7] odExampleC1 "signature" (fun _ _ => [222]) (fun _ => [3]) =
      .success [222, 65] ∧
    ([222, 65] : Bytes).getLast? = some 65 := by
  have h := c1_computeSignatureBCH_success "alice.signature.all_outputs" [7]
    odExampleC1 "signature" (fun _ _ => [222]) (fun _ => [3]) "all_outputs" 65
    rfl rfl (by decide)
  exact ⟨h.1, by decide⟩

/-- C3: malformed signature identifiers yield exactly the prescribed
non-recoverable errors from `compilerOperationHelperComputeSignatureBCH`:
a present fourth segment names the unknown component; a missing algorithm
segment yields the "Invalid signature identifier" message (here for the
`signature` operation); an unrecognized algorithm yields the
"Unknown signing serialization algorithm" message.  In each case the result
is the same for every private key, operation data, sign function, and hash
function, so no signing serialization is produced and the private key is
never used; and these are exactly the error cases — a well-formed identifier
with a recognized algorithm succeeds. -/
theorem c3_computeSignatureBCH_malformed :
    (∀ (identifier : String) (privateKey : Bytes) (od : OperationData)
        (operationName : String) (sign : Bytes → Bytes → Bytes)
        (h : Bytes → Bytes) (u : String),
      (jsSplit identifier '.').get? 3 = some u →
      compilerOperationHelperComputeSignatureBCH identifier privateKey od
          operationName sign h =
        .error (s!"Unknown component in \"{identifier}\" – the fragment \"{u}\" is not recognized.") false) ∧
    (∀ (identifier : String) (privateKey : Bytes) (od : OperationData)
        (sign : Bytes → Bytes → Bytes) (h : Bytes → Bytes),
      (jsSplit identifier '.').get? 2 = none →
      compilerOperationHelperComputeSignatureBCH identifier privateKey od
          "signature" sign h =
        .error "Invalid signature identifier. Signatures must be of the form: \"[variable_id].signature.[signing_serialization_type]\"." false) ∧
    (∀ (identifier : String) (privateKey : Bytes) (od : OperationData)
        (operationName : String) (sign : Bytes → Bytes → Bytes)
        (h : Bytes → Bytes) (alg : String),
      (jsSplit identifier '.').get? 3 = none →
      (jsSplit identifier '.').get? 2 = some alg →
      getSigningSerializationType alg "" = none →
      compilerOperationHelperComputeSignatureBCH identifier privateKey od
          operationName sign h =
        .error (s!"Unknown signing serialization algorithm, \"{alg}\".") false) ∧
    (∀ (identifier : String) (privateKey : Bytes) (od : OperationData)
        (operationName : String) (sign : Bytes → Bytes → Bytes)
        (h : Bytes → Bytes) (alg : String) (sst : Bytes),
      (jsSplit identifier '.').get? 3 = none →
      (jsSplit identifier '.').get? 2 = some alg →
      getSigningSerializationType alg "" = some sst →
      ∃ bc, compilerOperationHelperComputeSignatureBCH identifier privateKey
        od operationName sign h = .success bc) := by
  refine ⟨?_, ?_, ?_, ?_⟩
  · intro identifier privateKey od operationName sign h u hU
    simp only [compilerOperationHelperComputeSignatureBCH, hU]
  · intro identifier privateKey od sign h hA
    have hP : (jsSplit identifier '.').get? 3 = none := by
      rw [List.get?_eq_none] at hA ⊢
      omega
    simp only [compilerOperationHelperComputeSignatureBCH, hP, hA]
    rfl
  · intro identifier privateKey od operationName sign h alg hP hA hT
    simp only [compilerOperationHelperComputeSignatureBCH, hP, hA, hT]
  · intro identifier privateKey od operationName sign h alg sst hP hA hT
    simp only [compilerOperationHelperComputeSignatureBCH, hP, hA, hT]
    exact ⟨_, rfl⟩

/-- C4: for every identifier whose first segment is `variableId`, resolved by
the common Key `public_key` operation with `keys` present in the compilation
data: a precomputed `keys.publicKeys[variableId]` is returned verbatim
regardless of the rest of the environment; otherwise, with `secp256k1`
present, a provided `keys.privateKeys[variableId]` yields
`derivePublicKeyCompressed` of it; and with neither key provided the result
is a recoverable error. -/
theorem c4_keyPublicKeyCommon (identifier variableId : String)
    (data : CompilationData) (environment : CompilationEnvironment)
    (keys : Keys) (hK : data.keys = some keys)
    (hV : (jsSplit identifier '.').headD "" = variableId) :
    (∀ pk, jsGet keys.publicKeys variableId = some pk →
      compilerOperationKeyPublicKeyCommon identifier data environment =
        .success pk) ∧
    (∀ privateKey secp256k1,
      jsGet keys.publicKeys variableId = none →
      jsGet keys.privateKeys variableId = some privateKey →
      environment.secp256k1 = some secp256k1 →
      compilerOperationKeyPublicKeyCommon identifier data environment =
        .success (secp256k1.derivePublicKeyCompressed privateKey)) ∧
    (∀ secp256k1,
      jsGet keys.publicKeys variableId = none →
      jsGet keys.privateKeys variableId = none →
      environment.secp256k1 = some secp256k1 →
      compilerOperationKeyPublicKeyCommon identifier data environment =
        .error (s!"Identifier \"{identifier}\" refers to a public key, but no public or private keys for \"{variableId}\" were provided in the compilation data.") true) := by
  have hV' : (jsSplit identifier '.').head?.getD "" = variableId := by
    simpa using hV
  refine ⟨?_, ?_, ?_⟩
  · intro pk h1
    simp [compilerOperationKeyPublicKeyCommon, attemptCompilerOperations,
      attemptChainGo, compilerOperationRequires, CompilationData.hasProperty,
      hK, hV', h1]
  · intro privateKey secp256k1 h1 h2 hS
    simp [compilerOperationKeyPublicKeyCommon, attemptCompilerOperations,
      attemptChainGo, compilerOperationRequires, CompilationData.hasProperty,
      CompilationEnvironment.hasProperty, hK, hV', h1, h2, hS]
  · intro secp256k1 h1 h2 hS
    simp [compilerOperationKeyPublicKeyCommon, attemptCompilerOperations,
      attemptChainGo, compilerOperationRequires, CompilationData.hasProperty,
      CompilationEnvironment.hasProperty, hK, hV', h1, h2, hS]

/-- Witness for C4: scenario S1 — an environment with no `secp256k1`, a
precomputed public key `0x02aa` for `alice`, and the identifier
`"alice.public_key"` succeed with the precomputed bytes. -/
theorem c4_keyPublicKeyCommon_witness :
    compilerOperationKeyPublicKeyCommon "alice.public_key" dataExampleC4
      envExampleC4 = .success [2, 170] :=
  (c4_keyPublicKeyCommon "alice.public_key" "alice" dataExampleC4
    envExampleC4 keysExampleC4 rfl rfl).1 [2, 170] rfl

/-- C5: for every data-signature identifier of the form
`variableId.operationName.targetScriptId` (fourth segment absent) whose target
script exists in `environment.scripts` and resolves to compiled bytecode,
`compilerOperationHelperComputeDataSignatureBCH` succeeds with
`sign(privateKey, sha256(compiledBytecode))`: the compiled target bytecode is
hashed exactly once with SHA-256 and no SIGHASH byte is appended. -/
theorem c5_computeDataSignatureBCH_success (data : CompilationData)
    (environment : CompilationEnvironment) (identifier : String)
    (privateKey : Bytes) (operationName : String)
    (sign : Bytes → Bytes → Bytes) (h : Bytes → Bytes)
    (scriptId target : String) (bytecode : Bytes)
    (hP : (jsSplit identifier '.').get? 3 = none)
    (hS : (jsSplit identifier '.').get? 2 = some scriptId)
    (hT : environment.scripts scriptId = some target)
    (hR : environment.resolveScriptId data scriptId = .resolved bytecode) :
    compilerOperationHelperComputeDataSignatureBCH data environment identifier
        privateKey operationName sign h =
      .success (sign privateKey (h bytecode)) := by
  simp only [compilerOperationHelperComputeDataSignatureBCH, hP, hS, hT, hR]

/-- Witness for C5: signing `"bob.data_signature.target"` with toy sign and
hash functions produces the single-hashed, unsuffixed signature. -/
theorem c5_computeDataSignatureBCH_success_witness :
    compilerOperationHelperComputeDataSignatureBCH dataExampleC5 envExampleC5
      "bob.data_signature.target" [5] "data_signature"
      (fun p m => p ++ m) (fun b => 9 :: b) = .success [5, 9, 81] :=
  c5_computeDataSignatureBCH_success dataExampleC5 envExampleC5
    "bob.data_signature.target" [5] "data_signature" (fun p m => p ++ m)
    (fun b => 9 :: b) "target" "OP_1" [81] rfl rfl rfl rfl

/-- C6: when a data-signature identifier's target script id is absent from
`environment.scripts`, or resolution fails outright,
`compilerOperationHelperComputeDataSignatureBCH` returns the non-recoverable
unknown-target error (for every sign function and private key, so no signing
occurs); and when the target script exists but its resolution produced a
nested compile error, that error's string message is returned as a
non-recoverable error. -/
theorem c6_computeDataSignatureBCH_unknownTarget :
    (∀ (data : CompilationData) (environment : CompilationEnvironment)
        (identifier : String) (privateKey : Bytes) (operationName : String)
        (sign : Bytes → Bytes → Bytes) (h : Bytes → Bytes) (scriptId : String),
      (jsSplit identifier '.').get? 3 = none →
      (jsSplit identifier '.').get? 2 = some scriptId →
      (environment.scripts scriptId = none ∨
        environment.resolveScriptId data scriptId = .failed) →
      compilerOperationHelperComputeDataSignatureBCH data environment
          identifier privateKey operationName sign h =
        .error (s!"Data signature tried to sign an unknown target script, \"{scriptId}\".") false) ∧
    (∀ (data : CompilationData) (environment : CompilationEnvironment)
        (identifier : String) (privateKey : Bytes) (operationName : String)
        (sign : Bytes → Bytes → Bytes) (h : Bytes → Bytes)
        (scriptId target message : String),
      (jsSplit identifier '.').get? 3 = none →
      (jsSplit identifier '.').get? 2 = some scriptId →
      environment.scripts scriptId = some target →
      environment.resolveScriptId data scriptId = .errorMessage message →
      compilerOperationHelperComputeDataSignatureBCH data environment
          identifier privateKey operationName sign h =
        .error message false) := by
  constructor
  · intro data environment identifier privateKey operationName sign h scriptId
      hP hS hMiss
    rcases hMiss with hT | hR
    · cases hR : environment.resolveScriptId data scriptId <;>
        simp only [compilerOperationHelperComputeDataSignatureBCH, hP, hS, hT,
          hR]
    · simp only [compilerOperationHelperComputeDataSignatureBCH, hP, hS, hR]
  · intro data environment identifier privateKey operationName sign h scriptId
      target message hP hS hT hR
    simp only [compilerOperationHelperComputeDataSignatureBCH, hP, hS, hT, hR]

/-- Witness for C6: scenario S5 — `"bob.data_signature.missing_script"`
against an environment with no scripts yields the unknown-target error; and a
target whose resolution carries a nested compile error surfaces that
message. -/
theorem c6_computeDataSignatureBCH_unknownTarget_witness :
    compilerOperationHelperComputeDataSignatureBCH dataExampleC4 envExampleC4
      "bob.data_signature.missing_script" [5] "data_signature"
      (fun p m => p ++ m) (fun b => b) =
      .error "Data signature tried to sign an unknown target script, \"missing_script\"." false ∧
    compilerOperationHelperComputeDataSignatureBCH dataExampleC4
      { envExampleC4 with
        scripts := fun k => if k = "bad" then some "OP_X" else none
        resolveScriptId := fun _ _ => .errorMessage "nested compile error" }
      "bob.data_signature.bad" [5] "data_signature" (fun p m => p ++ m)
      (fun b => b) = .error "nested compile error" false :=
  ⟨c6_computeDataSignatureBCH_unknownTarget.1 dataExampleC4 envExampleC4
      "bob.data_signature.missing_script" [5] "data_signature"
      (fun p m => p ++ m) (fun b => b) "missing_script" rfl rfl (.inl rfl),
   c6_computeDataSignatureBCH_unknownTarget.2 dataExampleC4 _
      "bob.data_signature.bad" [5] "data_signature" (fun p m => p ++ m)
      (fun b => b) "bad" "OP_X" "nested compile error" rfl rfl rfl rfl⟩

/-- C7: with operation data and sha256 present, the
`signing_serialization.full_<algorithm>` operation succeeds with exactly the
raw signing-serialization preimage generated with the selected SIGHASH byte —
no hashing of the preimage and no signing — while an unrecognized algorithm,
a missing segment, or an extra trailing segment each yield a non-recoverable
error. -/
theorem c7_signingSerializationFullBCH (data : CompilationData)
    (environment : CompilationEnvironment) (od : OperationData)
    (sh : Sha256Cap) (hD : data.operationData = some od)
    (hS : environment.sha256 = some sh) :
    (∀ (identifier a : String) (sst : Bytes),
      (jsSplit identifier '.').get? 1 = some a →
      (jsSplit identifier '.').get? 2 = none →
      getSigningSerializationType a "full_" = some sst →
      compilerOperationSigningSerializationFullBCH identifier data
          environment =
        .success (generateSigningSerializationBCH sh.hash sst od)) ∧
    (∀ identifier : String,
      (jsSplit identifier '.').get? 1 = none →
      compilerOperationSigningSerializationFullBCH identifier data
          environment =
        .error "Invalid signing serialization operation. Include the desired component or algorithm, e.g. \"signing_serialization.version\"." false) ∧
    (∀ identifier a u : String,
      (jsSplit identifier '.').get? 1 = some a →
      (jsSplit identifier '.').get? 2 = some u →
      compilerOperationSigningSerializationFullBCH identifier data
          environment =
        .error (s!"Unknown component in \"{identifier}\" – the fragment \"{u}\" is not recognized.") false) ∧
    (∀ identifier a : String,
      (jsSplit identifier '.').get? 1 = some a →
      (jsSplit identifier '.').get? 2 = none →
      getSigningSerializationType a "full_" = none →
      compilerOperationSigningSerializationFullBCH identifier data
          environment =
        .error (s!"Unknown signing serialization algorithm, \"{a}\".") false) := by
  refine ⟨?_, ?_, ?_, ?_⟩
  · intro identifier a sst h1 h2 hT
    have h1' : (jsSplit identifier '.')[1]? = some a := by simpa using h1
    have h2' : (jsSplit identifier '.')[2]? = none := by simpa using h2
    simp [compilerOperationSigningSerializationFullBCH,
      compilerOperationRequires, CompilationData.hasProperty,
      CompilationEnvironment.hasProperty, hD, hS, h1', h2', hT]
  · intro identifier h1
    have h1' : (jsSplit identifier '.')[1]? = none := by simpa using h1
    simp [compilerOperationSigningSerializationFullBCH,
      compilerOperationRequires, CompilationData.hasProperty,
      CompilationEnvironment.hasProperty, hD, hS, h1']
  · intro identifier a u h1 h2
    have h1' : (jsSplit identifier '.')[1]? = some a := by simpa using h1
    have h2' : (jsSplit identifier '.')[2]? = some u := by simpa using h2
    simp [compilerOperationSigningSerializationFullBCH,
      compilerOperationRequires, CompilationData.hasProperty,
      CompilationEnvironment.hasProperty, hD, hS, h1', h2']
  · intro identifier a h1 h2 hT
    have h1' : (jsSplit identifier '.')[1]? = some a := by simpa using h1
    have h2' : (jsSplit identifier '.')[2]? = none := by simpa using h2
    simp [compilerOperationSigningSerializationFullBCH,
      compilerOperationRequires, CompilationData.hasProperty,
      CompilationEnvironment.hasProperty, hD, hS, h1', h2', hT]

/-- Witness for C7: the identifier
`"signing_serialization.full_all_outputs"` returns the raw preimage for
SIGHASH byte `0x41`, and the malformed identifiers of each error family
fail. -/
theorem c7_signingSerializationFullBCH_witness :
    compilerOperationSigningSerializationFullBCH
      "signing_serialization.full_all_outputs" dataExampleC7 envExampleC7 =
      .success (generateSigningSerializationBCH (fun b => 7 :: b) [65]
        odExampleC1) ∧
    compilerOperationSigningSerializationFullBCH "signing_serialization"
      dataExampleC7 envExampleC7 =
      .error "Invalid signing serialization operation. Include the desired component or algorithm, e.g. \"signing_serialization.version\"." false ∧
    compilerOperationSigningSerializationFullBCH
      "signing_serialization.full_all_outputs.extra" dataExampleC7
      envExampleC7 =
      .error "Unknown component in \"signing_serialization.full_all_outputs.extra\" – the fragment \"extra\" is not recognized." false ∧
    compilerOperationSigningSerializationFullBCH
      "signing_serialization.full_bogus" dataExampleC7 envExampleC7 =
      .error "Unknown signing serialization algorithm, \"full_bogus\"." false :=
  ⟨(c7_signingSerializationFullBCH dataExampleC7 envExampleC7 odExampleC1
      ⟨fun b => 7 :: b⟩ rfl rfl).1 "signing_serialization.full_all_outputs"
      "full_all_outputs" [65] rfl rfl (by decide),
   (c7_signingSerializationFullBCH dataExampleC7 envExampleC7 odExampleC1
      ⟨fun b => 7 :: b⟩ rfl rfl).2.1 "signing_serialization" rfl,
   (c7_signingSerializationFullBCH dataExampleC7 envExampleC7 odExampleC1
      ⟨fun b => 7 :: b⟩ rfl rfl).2.2.1
      "signing_serialization.full_all_outputs.extra" "full_all_outputs"
      "extra" rfl rfl,
   (c7_signingSerializationFullBCH dataExampleC7 envExampleC7 odExampleC1
      ⟨fun b => 7 :: b⟩ rfl rfl).2.2.2 "signing_serialization.full_bogus"
      "full_bogus" rfl rfl (by decide)⟩

/-- C9: with operation data present but `correspondingOutput` undefined, both
the `signing_serialization.corresponding_output` operation and its `_hash`
variant succeed with the empty byte sequence (neither errors); the hash
variant double-SHA-256 hashes the corresponding output only when it is
present. -/
theorem c9_correspondingOutput_empty (data : CompilationData)
    (environment : CompilationEnvironment) (od : OperationData)
    (sh : Sha256Cap) (hD : data.operationData = some od)
    (hS : environment.sha256 = some sh) :
    (od.correspondingOutput = none →
      ∀ identifier : String,
        compilerOperationSigningSerializationCorrespondingOutput identifier
          data environment = .success [] ∧
        compilerOperationSigningSerializationCorrespondingOutputHash
          identifier data environment = .success []) ∧
    (∀ co : Bytes, od.correspondingOutput = some co →
      ∀ identifier : String,
        compilerOperationSigningSerializationCorrespondingOutputHash
          identifier data environment = .success (sh.hash (sh.hash co))) := by
  constructor
  · intro hCo identifier
    constructor
    · simp [compilerOperationSigningSerializationCorrespondingOutput,
        compilerOperationRequires, CompilationData.hasProperty, hD, hCo]
    · simp [compilerOperationSigningSerializationCorrespondingOutputHash,
        compilerOperationRequires, CompilationData.hasProperty,
        CompilationEnvironment.hasProperty, hD, hS, hCo]
  · intro co hCo identifier
    simp [compilerOperationSigningSerializationCorrespondingOutputHash,
      compilerOperationRequires, CompilationData.hasProperty,
      CompilationEnvironment.hasProperty, hD, hS, hCo]

/-- Witness for C9: with the example operation data (whose
`correspondingOutput` is undefined) both component operations return the
empty byte sequence. -/
theorem c9_correspondingOutput_empty_witness :
    compilerOperationSigningSerializationCorrespondingOutput
      "signing_serialization.corresponding_output" dataExampleC7
      envExampleC7 = .success [] ∧
    compilerOperationSigningSerializationCorrespondingOutputHash
      "signing_serialization.corresponding_output_hash" dataExampleC7
      envExampleC7 = .success [] :=
  ⟨((c9_correspondingOutput_empty dataExampleC7 envExampleC7 odExampleC1
      ⟨fun b => 7 :: b⟩ rfl rfl).1 rfl
      "signing_serialization.corresponding_output").1,
   ((c9_correspondingOutput_empty dataExampleC7 envExampleC7 odExampleC1
      ⟨fun b => 7 :: b⟩ rfl rfl).1 rfl
      "signing_serialization.corresponding_output_hash").2⟩

/-- C8: in HD-key public-key derivation by the public path (no precomputed
derived key, entity HD private key absent, entity HD public key present), the
instance derivation path is the public derivation path — defaulting from the
private derivation path with its first `m` replaced by `M` — with its first
`i` replaced by the decimal rendering of `addressIndex + addressOffset`, and
that path is the one passed to `deriveHdPath`; in particular with
`privateDerivationPath = "m/0/i"`, `addressIndex = 3`, and
`addressOffset = 2`, the instance path is `"M/0/5"`. -/
theorem c8_hdKeyPublicKey_publicPath (identifier variableId : String)
    (data : CompilationData) (environment : CompilationEnvironment)
    (hdKeys : HdKeys) (hdKey : HdKey) (entityId entityHdPublicKey : String)
    (addressIndex : Nat) (instancePath : String)
    (hH : data.hdKeys = some hdKeys)
    (hV : (jsSplit identifier '.').headD "" = variableId)
    (hDp : jsGet hdKeys.derivedPublicKeys variableId = none)
    (hOwn : jsGet environment.entityOwnership variableId = some entityId)
    (hAi : hdKeys.addressIndex = some addressIndex)
    (hPriv : jsGet hdKeys.hdPrivateKeys entityId = none)
    (hVar : jsGet environment.«variables» variableId = some (.hdKey hdKey))
    (hPub : jsGet hdKeys.hdPublicKeys entityId = some entityHdPublicKey)
    (hSe : environment.secp256k1.isSome = true)
    (hSh : environment.sha256.isSome = true)
    (hS5 : environment.sha512.isSome = true)
    (hRi : environment.ripemd160.isSome = true)
    (hIp : instancePath =
      jsReplaceFirst
        (hdKey.publicDerivationPath.getD
          (jsReplaceFirst
            (hdKey.privateDerivationPath.getD
              CompilerDefaults.hdKeyPrivateDerivationPath) "m" "M"))
        "i"
        (toString ((addressIndex : Int) +
          hdKey.addressOffset.getD CompilerDefaults.hdKeyAddressOffset))) :
    (compilerOperationHdKeyPublicKeyCommon identifier data environment =
      match environment.decodeHdPublicKey entityHdPublicKey with
      | .error message =>
        .error (s!"Could not generate \"{identifier}\" – the HD public key provided for \"{entityId}\" could not be decoded: {message}") false
      | .ok node =>
        match environment.deriveHdPath node instancePath with
        | .error message =>
          .error (s!"Could not generate \"{identifier}\" – the path \"{instancePath}\" could not be derived for entity \"{entityId}\": {message}") false
        | .ok instanceNode => .success instanceNode.publicKey) ∧
    (hdKey.privateDerivationPath = some "m/0/i" →
      hdKey.publicDerivationPath = none →
      hdKey.addressOffset = some 2 →
      addressIndex = 3 →
      instancePath = "M/0/5") := by
  have hV' : (jsSplit identifier '.').head?.getD "" = variableId := by
    simpa using hV
  have hOwnSome : environment.entityOwnership.isSome = true := by
    cases hO : environment.entityOwnership with
    | none => rw [hO] at hOwn; simp [jsGet] at hOwn
    | some f => rfl
  have hVarSome : environment.«variables».isSome = true := by
    cases hO : environment.«variables» with
    | none => rw [hO] at hVar; simp [jsGet] at hVar
    | some f => rfl
  constructor
  · subst hIp
    simp [compilerOperationHdKeyPublicKeyCommon, attemptCompilerOperations,
      attemptChainGo, compilerOperationRequires, CompilationData.hasProperty,
      CompilationEnvironment.hasProperty, hH, hV', hDp, hOwn, hAi, hPriv,
      hVar, hPub, hOwnSome, hVarSome, hSe, hSh, hS5, hRi]
  · intro p1 p2 p3 p4
    subst p4
    rw [hIp, p1, p2, p3]
    decide

/-- Witness for C8: deriving `mykey.public_key` by the public path passes the
instance path `"M/0/5"` to `deriveHdPath` (the environment derives only that
path) and succeeds, and the substituted path equals `"M/0/5"`. -/
theorem c8_hdKeyPublicKey_publicPath_witness :
    compilerOperationHdKeyPublicKeyCommon "mykey.public_key" dataExampleC8
      envExampleC8 = .success [5, 5] ∧
    jsReplaceFirst
        ((none : Option String).getD (jsReplaceFirst "m/0/i" "m" "M")) "i"
        (toString ((3 : Int) + (some (2 : Int)).getD
          CompilerDefaults.hdKeyAddressOffset)) = "M/0/5" := by
  have h := c8_hdKeyPublicKey_publicPath "mykey.public_key" "mykey"
    dataExampleC8 envExampleC8
    { addressIndex := some 3
      hdPrivateKeys := none
      hdPublicKeys := some fun k => if k = "owner" then some "xpub-owner" else none
      derivedPublicKeys := none }
    { addressOffset := some 2
      privateDerivationPath := some "m/0/i"
      publicDerivationPath := none }
    "owner" "xpub-owner" 3 "M/0/5" rfl rfl rfl rfl rfl rfl rfl rfl rfl rfl
    rfl rfl (by decide)
  refine ⟨?_, ?_⟩
  · rw [h.1]
    decide
  · exact h.2 rfl rfl rfl rfl ▸ (by decide)

/-- Pointwise evaluation of the object spread `{...a, ...b}`. -/
theorem objectSpread_apply (a b : String → Option α) (k : String) :
    objectSpread a b k =
      match b k with
      | some v => some v
      | none => a k := by
  unfold objectSpread
  cases b k <;> rfl

/-- The inner `entityOwnership` fold over one entity's variable keys maps `k`
to the entity id exactly when the entity declares `k`. -/
theorem ownershipInnerFold_apply (l : List (String × V)) (eid : String)
    (init : String → Option String) (k : String) :
    (l.foldl
        (fun entityVariables q =>
          objectSpread entityVariables fun j =>
            if q.1 = j then some eid else none)
        init) k =
      match jsObjLookup l k with
      | some _ => some eid
      | none => init k := by
  induction l generalizing init with
  | nil => rfl
  | cons q rest ih =>
    simp only [List.foldl_cons, ih, jsObjLookup]
    cases jsObjLookup rest k with
    | some v => rfl
    | none =>
      simp only [objectSpread_apply]
      by_cases hq : q.1 = k <;> simp [hq]

/-- The `variables` fold maps `k` to the last declaring entity's binding. -/
theorem variablesFold_apply
    (entities : List (String × AuthenticationTemplateEntity V))
    (init : String → Option V) (k : String) :
    (entities.foldl
        (fun all p => objectSpread all (jsObjLookup (p.2.«variables».getD [])))
        init) k =
      match lastDeclaringEntity entities k with
      | some p => jsObjLookup (p.2.«variables».getD []) k
      | none => init k := by
  induction entities generalizing init with
  | nil => rfl
  | cons p rest ih =>
    simp only [List.foldl_cons, ih, lastDeclaringEntity]
    cases lastDeclaringEntity rest k with
    | some q => rfl
    | none =>
      simp only [objectSpread_apply]
      cases hv : jsObjLookup (p.2.«variables».getD []) k <;> simp [hv]

/-- The `entityOwnership` fold maps `k` to the last declaring entity's id. -/
theorem ownershipFold_apply
    (entities : List (String × AuthenticationTemplateEntity V))
    (init : String → Option String) (k : String) :
    (entities.foldl
        (fun all p =>
          objectSpread all
            ((p.2.«variables».getD []).foldl
              (fun entityVariables q =>
                objectSpread entityVariables fun j =>
                  if q.1 = j then some p.1 else none)
              emptyObj))
        init) k =
      match lastDeclaringEntity entities k with
      | some p => some p.1
      | none => init k := by
  induction entities generalizing init with
  | nil => rfl
  | cons p rest ih =>
    simp only [List.foldl_cons, ih, lastDeclaringEntity]
    cases lastDeclaringEntity rest k with
    | some q => rfl
    | none =>
      simp only [objectSpread_apply, ownershipInnerFold_apply]
      cases hv : jsObjLookup (p.2.«variables».getD []) k <;> simp [hv, emptyObj]

/-- The last declaring entity really declares the id. -/
theorem lastDeclaringEntity_declares
    (entities : List (String × AuthenticationTemplateEntity V)) (k : String)
    (p : String × AuthenticationTemplateEntity V)
    (h : lastDeclaringEntity entities k = some p) :
    (jsObjLookup (p.2.«variables».getD []) k).isSome = true := by
  induction entities with
  | nil => simp [lastDeclaringEntity] at h
  | cons q rest ih =>
    simp only [lastDeclaringEntity] at h
    cases hr : lastDeclaringEntity rest k with
    | some r =>
      rw [hr] at h
      cases h
      exact ih hr
    | none =>
      rw [hr] at h
      by_cases hd : (jsObjLookup (q.2.«variables».getD []) k).isSome = true
      · rw [if_pos hd] at h
        cases h
        exact hd
      · rw [if_neg hd] at h
        cases h

/-- C10: `authenticationTemplateToCompilationEnvironment` maps each variable
id to the last-enumerated entity declaring it, in both the `variables` map
(whose value is that entity's binding) and the `entityOwnership` map (whose
value is that entity's id) — so duplicated variable ids resolve by
last-write-wins, each id has exactly one owning entity — and the key set of
the returned `variables` map equals the key set of the returned
`entityOwnership` map, with entities declaring no variables contributing to
neither. -/
theorem c10_templateAdapter_lastWriteWins {V : Type}
    (t : AuthenticationTemplate V) (id : String) :
    ((authenticationTemplateToCompilationEnvironment t).entityOwnership id =
      (lastDeclaringEntity t.entities id).map fun p => p.1) ∧
    ((authenticationTemplateToCompilationEnvironment t).«variables» id =
      (lastDeclaringEntity t.entities id).bind fun p =>
        jsObjLookup (p.2.«variables».getD []) id) ∧
    (((authenticationTemplateToCompilationEnvironment t).«variables» id).isSome =
      ((authenticationTemplateToCompilationEnvironment t).entityOwnership
        id).isSome) := by
  have hOwn :
      (authenticationTemplateToCompilationEnvironment t).entityOwnership id =
        match lastDeclaringEntity t.entities id with
        | some p => some p.1
        | none => emptyObj id := by
    simp only [authenticationTemplateToCompilationEnvironment]
    exact ownershipFold_apply t.entities emptyObj id
  have hVars :
      (authenticationTemplateToCompilationEnvironment t).«variables» id =
        match lastDeclaringEntity t.entities id with
        | some p => jsObjLookup (p.2.«variables».getD []) id
        | none => emptyObj id := by
    simp only [authenticationTemplateToCompilationEnvironment]
    exact variablesFold_apply t.entities emptyObj id
  refine ⟨?_, ?_, ?_⟩
  · rw [hOwn]
    cases lastDeclaringEntity t.entities id <;> simp [emptyObj]
  · rw [hVars]
    cases lastDeclaringEntity t.entities id <;> simp [emptyObj]
  · rw [hOwn, hVars]
    cases hl : lastDeclaringEntity t.entities id with
    | none => simp [emptyObj]
    | some p => simp [lastDeclaringEntity_declares t.entities id p hl]

/-- Witness for C3: the three malformed shapes at concrete identifiers
(`"a.signature.all_outputs.extra"`, `"alice.signature"`, and
`"alice.signature.unknown_algo"`). -/
theorem c3_computeSignatureBCH_malformed_witness :
    compilerOperationHelperComputeSignatureBCH "a.signature.all_outputs.extra"
        [1] odExampleC3 "signature" (fun _ _ => []) (fun _ => []) =
      .error "Unknown component in \"a.signature.all_outputs.extra\" – the fragment \"extra\" is not recognized." false ∧
    compilerOperationHelperComputeSignatureBCH "alice.signature" [1]
        odExampleC3 "signature" (fun _ _ => []) (fun _ => []) =
      .error "Invalid signature identifier. Signatures must be of the form: \"[variable_id].signature.[signing_serialization_type]\"." false ∧
    compilerOperationHelperComputeSignatureBCH "alice.signature.unknown_algo"
        [1] odExampleC3 "signature" (fun _ _ => []) (fun _ => []) =
      .error "Unknown signing serialization algorithm, \"unknown_algo\"." false :=
  ⟨c3_computeSignatureBCH_malformed.1 "a.signature.all_outputs.extra" [1]
      odExampleC3 "signature" (fun _ _ => []) (fun _ => []) "extra" rfl,
   c3_computeSignatureBCH_malformed.2.1 "alice.signature" [1] odExampleC3
      (fun _ _ => []) (fun _ => []) rfl,
   c3_computeSignatureBCH_malformed.2.2.1 "alice.signature.unknown_algo" [1]
      odExampleC3 "signature" (fun _ _ => []) (fun _ => []) "unknown_algo" rfl
      rfl (by decide)⟩

end LibAuth
